import Mathlib

/-!
Verification of the LearnHub backend generation pipeline (`src/main.py`).

The Python source is shallowly embedded: pure helpers become Lean
functions; the two external collaborators (the Bedrock text-generation
service and the YouTube video-search service), the JSON parser
(`json.loads`), the S3 store and the clock are abstracted as oracle
parameters; effectful aspects that the claims observe (backoff sleeps,
which keywords were queried, which documents were persisted) are returned
as explicit traces alongside the pure result.
-/

namespace LearnHub

/-! ## Constants (`YOUTUBE_LIMITS`, src/main.py lines 24-28) -/

/-- The `YOUTUBE_LIMITS` configuration dict of src/main.py (lines 24-28).
`videos_per_keyword` is declared in the source but never read. -/
structure YouTubeLimits where
  videos_per_keyword : Nat
  keywords_per_chapter : Nat
  max_total_videos : Nat
deriving DecidableEq, Repr

/-- `YOUTUBE_LIMITS = {"videos_per_keyword": 1, "keywords_per_chapter": 5, "max_total_videos": 3}`. -/
def YOUTUBE_LIMITS : YouTubeLimits :=
  { videos_per_keyword := 1, keywords_per_chapter := 5, max_total_videos := 3 }

/-! ## Video data (`video_data` dict built in `fetch_youtube_videos`, lines 221-233)

The `video_data` dict literal of the source has no "score" key: the line
computing a score (line 219) and the line storing it (line 231) are both
commented out.  The Lean `Video` record therefore mirrors the dict without
a score field, and the sort key `v.get("score", 0)` (line 240) is the
constant `0`. -/

/-- One entry of the YouTube statistics response, after the per-item field
extraction of lines 214-217 succeeded.  Field names follow the JSON fields
read by the source. -/
structure RawItem where
  video_id : String
  video_title : String
  channel_name : String
  description : String
  thumbnail : String
  publish_date : String
  view_count : Nat
  like_count : Nat
deriving DecidableEq, Repr

/-- The `video_data` dict built at lines 221-233: the raw item's fields plus
the derived link and the originating query. -/
structure Video where
  video_title : String
  video_id : String
  video_link : String
  channel_name : String
  description : String
  thumbnail : String
  publish_date : String
  view_count : Nat
  like_count : Nat
  search_query : String
deriving DecidableEq, Repr

/-- Construction of `video_data` from a statistics item (lines 221-233);
`video_link` is derived from the id, `search_query` is the current query. -/
def mkVideo (query : String) (r : RawItem) : Video :=
  { video_title := r.video_title
    video_id := r.video_id
    video_link := "https://www.youtube.com/watch?v=" ++ r.video_id
    channel_name := r.channel_name
    description := r.description
    thumbnail := r.thumbnail
    publish_date := r.publish_date
    view_count := r.view_count
    like_count := r.like_count
    search_query := query }

/-- The `YouTubeResources` payload returned by `fetch_youtube_videos`
(lines 243-247) and validated by the pydantic model of lines 102-105. -/
structure YouTubeResources where
  total_videos : Nat
  videos : List Video
  limits_applied : YouTubeLimits
deriving DecidableEq, Repr

/-! ## Generic first-occurrence deduplication

`fetch_youtube_videos` deduplicates candidate videos by `video_id`
(lines 235-236) and `generate_learning_path` deduplicates study links by
string membership (lines 395-396); both are instances of the same
keep-first-occurrence fold. -/

/-- Key membership test, the shape of the source's
`any(v["video_id"] == video_data["video_id"] for v in videos)` check and of
`video.video_link not in study_links`. -/
def keyMem [DecidableEq β] (k : α → β) (b : β) : List α → Bool
  | [] => false
  | x :: xs => (decide (k x = b)) || keyMem k b xs

theorem keyMem_append [DecidableEq β] (k : α → β) (b : β) (l l' : List α) :
    keyMem k b (l ++ l') = (keyMem k b l || keyMem k b l') := by
  induction l with
  | nil => simp [keyMem]
  | cons x xs ih => simp [keyMem, ih, Bool.or_assoc]

theorem keyMem_eq_true_iff [DecidableEq β] (k : α → β) (b : β) (l : List α) :
    keyMem k b l = true ↔ ∃ x ∈ l, k x = b := by
  induction l with
  | nil => simp [keyMem]
  | cons x xs ih => simp [keyMem, ih]

/-- One step of keep-first-occurrence deduplication by a key. -/
def dedupStepBy [DecidableEq β] (k : α → β) (acc : List α) (x : α) : List α :=
  if keyMem k (k x) acc then acc else acc ++ [x]

theorem filter_cons_true {p : α → Bool} (x : α) (xs : List α) (h : p x = true) :
    (x :: xs).filter p = x :: xs.filter p := by
  simp [List.filter_cons, h]

theorem filter_cons_false {p : α → Bool} (x : α) (xs : List α) (h : p x = false) :
    (x :: xs).filter p = xs.filter p := by
  simp [List.filter_cons, h]

/-- Canonical recursive form of keep-first-occurrence deduplication by a
key: keep the head, drop later elements with the same key. -/
def dedupByKey [DecidableEq β] (k : α → β) : List α → List α
  | [] => []
  | x :: xs => x :: dedupByKey k (xs.filter (fun y => decide (k y ≠ k x)))
termination_by l => l.length
decreasing_by
  simp only [List.length_cons]
  exact Nat.lt_succ_of_le (List.length_filter_le _ _)

theorem dedupByKey_nil [DecidableEq β] (k : α → β) : dedupByKey k [] = [] := by
  rw [dedupByKey]

theorem dedupByKey_cons [DecidableEq β] (k : α → β) (x : α) (xs : List α) :
    dedupByKey k (x :: xs)
      = x :: dedupByKey k (xs.filter (fun y => decide (k y ≠ k x))) := by
  rw [dedupByKey]

/-- The accumulator fold computes `dedupByKey` of the elements whose key is
not already in the accumulator, appended to the accumulator. -/
theorem foldl_dedupStepBy [DecidableEq β] (k : α → β) (l : List α) :
    ∀ acc : List α,
      l.foldl (dedupStepBy k) acc
        = acc ++ dedupByKey k (l.filter (fun y => !keyMem k (k y) acc)) := by
  induction l with
  | nil => intro acc; simp [dedupByKey_nil]
  | cons x xs ih =>
    intro acc
    cases hx : keyMem k (k x) acc with
    | true =>
      have hstep : dedupStepBy k acc x = acc := by
        unfold dedupStepBy; rw [hx]; rfl
      have hfil : (x :: xs).filter (fun y => !keyMem k (k y) acc)
          = xs.filter (fun y => !keyMem k (k y) acc) := by
        apply filter_cons_false
        simp only [hx, Bool.not_true]
      rw [List.foldl_cons, hstep, hfil]
      exact ih acc
    | false =>
      have hstep : dedupStepBy k acc x = acc ++ [x] := by
        unfold dedupStepBy; rw [hx]; rfl
      have hfil : (x :: xs).filter (fun y => !keyMem k (k y) acc)
          = x :: xs.filter (fun y => !keyMem k (k y) acc) := by
        apply filter_cons_true
        simp only [hx, Bool.not_false]
      rw [List.foldl_cons, hstep, hfil, ih (acc ++ [x]), dedupByKey_cons]
      have hfilter :
          xs.filter (fun y => !keyMem k (k y) (acc ++ [x]))
            = (xs.filter (fun y => !keyMem k (k y) acc)).filter
                (fun y => decide (k y ≠ k x)) := by
        rw [List.filter_filter]
        apply List.filter_congr
        intro y _
        rw [keyMem_append]
        by_cases h : k x = k y
        · simp [keyMem, h]
        · have h' : k y ≠ k x := fun hh => h hh.symm
          simp [keyMem, h, h']
      rw [hfilter]
      simp

/-- Deduplication returns a sublist of its input: order is preserved and
nothing is invented. -/
theorem dedupByKey_sublist [DecidableEq β] (k : α → β) :
    (l : List α) → (dedupByKey k l).Sublist l
  | [] => by rw [dedupByKey_nil]
  | x :: xs => by
    rw [dedupByKey_cons]
    exact List.cons_sublist_cons.mpr
      ((dedupByKey_sublist k (xs.filter (fun y => decide (k y ≠ k x)))).trans
        (List.filter_sublist xs))
termination_by l => l.length
decreasing_by
  simp only [List.length_cons]
  exact Nat.lt_succ_of_le (List.length_filter_le _ _)

/-- After deduplication, keys are pairwise distinct. -/
theorem dedupByKey_keys_nodup [DecidableEq β] (k : α → β) :
    (l : List α) → ((dedupByKey k l).map k).Nodup
  | [] => by rw [dedupByKey_nil]; exact List.nodup_nil
  | x :: xs => by
    rw [dedupByKey_cons]
    simp only [List.map_cons, List.nodup_cons]
    refine ⟨?_, dedupByKey_keys_nodup k (xs.filter (fun y => decide (k y ≠ k x)))⟩
    intro hmem
    obtain ⟨y, hy, hky⟩ := List.mem_map.mp hmem
    have hy' : y ∈ xs.filter (fun y => decide (k y ≠ k x)) :=
      (dedupByKey_sublist k _).subset hy
    have hb := List.of_mem_filter hy'
    simp only [decide_eq_true_eq] at hb
    exact hb hky
termination_by l => l.length
decreasing_by
  simp only [List.length_cons]
  exact Nat.lt_succ_of_le (List.length_filter_le _ _)

/-! ## Stable descending sort (`videos.sort(key=..., reverse=True)`, line 240)

Python's `list.sort` is stable; with `reverse=True` it orders by
non-increasing key, equal keys keeping their original relative order.
Modelled as a stable insertion sort: an element is inserted before the
first element with a strictly smaller key. -/

def insertByKeyDesc (key : α → Nat) (x : α) : List α → List α
  | [] => [x]
  | y :: ys => if key y < key x then x :: y :: ys else y :: insertByKeyDesc key x ys

def sortByKeyDesc (key : α → Nat) (l : List α) : List α :=
  l.foldl (fun acc x => insertByKeyDesc key x acc) []

theorem insertByKeyDesc_const_zero (x : α) :
    ∀ acc : List α, insertByKeyDesc (fun _ => 0) x acc = acc ++ [x] := by
  intro acc
  induction acc with
  | nil => rfl
  | cons y ys ih => simp [insertByKeyDesc, ih]

/-- When every key is `0` (ties everywhere), the stable descending sort is
the identity: original order is preserved. -/
theorem sortByKeyDesc_const_zero (l : List α) : sortByKeyDesc (fun _ => 0) l = l := by
  have h : ∀ acc : List α, l.foldl (fun acc x => insertByKeyDesc (fun _ => 0) x acc) acc
      = acc ++ l := by
    induction l with
    | nil => intro acc; simp
    | cons x xs ih =>
      intro acc
      rw [List.foldl_cons, insertByKeyDesc_const_zero, ih]
      simp
  simpa using h []

/-! ## The Resource Fetcher (`fetch_youtube_videos`, lines 182-247)

The two outbound HTTP calls per keyword (search, then statistics) are
abstracted as one oracle `svc : String → Option (List (Option RawItem))`:
`none` models a non-success status code of either call (the keyword is
skipped, lines 196-197 and 209-210); an inner `none` models a statistics
item whose field extraction raised (skipped by the `except: continue` of
lines 237-238).  The second component of the result is the trace of
keywords actually queried, in order. -/

/-- The sort key `v.get("score", 0)` of line 240.  The `video_data` dict
never stores a "score" key (the computation at lines 218-219 and the store
at line 231 are commented out), so the lookup always yields the default 0. -/
def scoreKey (_v : Video) : Nat := 0

/-- Key used for deduplication at lines 235-236. -/
def videoId (v : Video) : String := v.video_id

/-- The inner loop over statistics items (lines 212-238): failed items are
skipped, parsed items are appended unless their id is already present. -/
def processItems (query : String) (videos : List Video)
    (items : List (Option RawItem)) : List Video :=
  items.foldl
    (fun acc it =>
      match it with
      | none => acc
      | some r => dedupStepBy videoId acc (mkVideo query r))
    videos

/-- One keyword's worth of work (lines 184-238): a failed search or
statistics call leaves the accumulator unchanged. -/
def processQuery (svc : String → Option (List (Option RawItem)))
    (videos : List Video) (query : String) : List Video :=
  match svc query with
  | none => videos
  | some items => processItems query videos items

/-- `fetch_youtube_videos(search_queries)` (lines 182-247).  Only the first
`keywords_per_chapter` queries are visited; candidates are deduplicated by
id, sorted by the (constant) score key, truncated to `max_total_videos`.
The second component records the keywords queried, in order. -/
def fetch_youtube_videos (svc : String → Option (List (Option RawItem)))
    (search_queries : List String) : YouTubeResources × List String :=
  let st := (search_queries.take YOUTUBE_LIMITS.keywords_per_chapter).foldl
    (fun (st : List Video × List String) q => (processQuery svc st.1 q, st.2 ++ [q]))
    ([], [])
  let sorted := sortByKeyDesc scoreKey st.1
  let top := sorted.take YOUTUBE_LIMITS.max_total_videos
  ({ total_videos := top.length, videos := top, limits_applied := YOUTUBE_LIMITS }, st.2)

/-- The candidate videos of the successfully fetched keywords, in discovery
order, before any deduplication. -/
def rawVideos (svc : String → Option (List (Option RawItem)))
    (search_queries : List String) : List Video :=
  (search_queries.take YOUTUBE_LIMITS.keywords_per_chapter).flatMap
    (fun q =>
      match svc q with
      | none => []
      | some items => items.filterMap (fun it => Option.map (mkVideo q) it))

theorem foldl_pair_trace {α β : Type} (f : α → β → α) (l : List β) :
    ∀ (acc : α) (tr : List β),
      l.foldl (fun (st : α × List β) q => (f st.1 q, st.2 ++ [q])) (acc, tr)
        = (l.foldl f acc, tr ++ l) := by
  induction l with
  | nil => intro acc tr; simp
  | cons x xs ih =>
    intro acc tr
    rw [List.foldl_cons, List.foldl_cons, ih]
    simp

theorem processItems_eq_foldl (query : String) (videos : List Video)
    (items : List (Option RawItem)) :
    processItems query videos items
      = (items.filterMap (fun it => Option.map (mkVideo query) it)).foldl
          (dedupStepBy videoId) videos := by
  induction items generalizing videos with
  | nil => rfl
  | cons it rest ih =>
    cases it with
    | none => simp [processItems, List.filterMap_cons, Option.map] at ih ⊢; exact ih _
    | some r =>
      simp [processItems, List.filterMap_cons, Option.map] at ih ⊢
      exact ih _

/-- The keyword fold is the plain dedup fold over all discovered videos. -/
theorem foldl_processQuery_eq (svc : String → Option (List (Option RawItem)))
    (queries : List String) :
    ∀ videos : List Video,
      queries.foldl (processQuery svc) videos
        = (queries.flatMap
            (fun q =>
              match svc q with
              | none => []
              | some items => items.filterMap (fun it => Option.map (mkVideo q) it))).foldl
            (dedupStepBy videoId) videos := by
  induction queries with
  | nil => intro videos; rfl
  | cons q rest ih =>
    intro videos
    rw [List.foldl_cons, List.flatMap_cons, List.foldl_append]
    cases hq : svc q with
    | none => rw [ih]; simp [processQuery, hq]
    | some items =>
      rw [ih]
      simp [processQuery, hq, processItems_eq_foldl]

/-- Collected videos are exactly the first-occurrence-by-id deduplication of
the discovery-ordered candidates. -/
theorem sortByKeyDesc_scoreKey (l : List Video) : sortByKeyDesc scoreKey l = l :=
  sortByKeyDesc_const_zero l

theorem collect_eq_dedup (svc : String → Option (List (Option RawItem)))
    (search_queries : List String) :
    (search_queries.take YOUTUBE_LIMITS.keywords_per_chapter).foldl
        (processQuery svc) []
      = dedupByKey videoId (rawVideos svc search_queries) := by
  rw [foldl_processQuery_eq, foldl_dedupStepBy]
  have hfil : ∀ m : List Video,
      m.filter (fun y => !keyMem videoId (videoId y) []) = m := by
    intro m
    apply List.filter_eq_self.mpr
    intro a _
    rfl
  rw [hfil]
  rfl

/-- Unfolding of `fetch_youtube_videos` through the fusion lemmas: the
returned videos are the deduplicated discovery list truncated to
`max_total_videos`, and the trace is the first `keywords_per_chapter`
keywords. -/
theorem fetch_youtube_videos_eq (svc : String → Option (List (Option RawItem)))
    (search_queries : List String) :
    fetch_youtube_videos svc search_queries
      = (let top := (dedupByKey videoId (rawVideos svc search_queries)).take
            YOUTUBE_LIMITS.max_total_videos
         ({ total_videos := top.length, videos := top,
            limits_applied := YOUTUBE_LIMITS },
          search_queries.take YOUTUBE_LIMITS.keywords_per_chapter)) := by
  unfold fetch_youtube_videos
  rw [foldl_pair_trace (processQuery svc)]
  simp only [List.nil_append]
  rw [collect_eq_dedup]
  rw [sortByKeyDesc_scoreKey]

theorem flatMap_congr_mem {α β : Type} (l : List α) (f g : α → List β)
    (h : ∀ a ∈ l, f a = g a) : l.flatMap f = l.flatMap g := by
  induction l with
  | nil => rfl
  | cons x xs ih =>
    rw [List.flatMap_cons, List.flatMap_cons, h x (List.mem_cons_self x xs),
      ih (fun a ha => h a (List.mem_cons_of_mem x ha))]

/-! ## Spec-side rank score (spec §4.4)

The specification's design-choice formula, stated from the spec's words for
comparison with the code: `(likes*2 + views) / age_in_days`.  The code never
computes it (the corresponding lines are commented out). -/

/-- The rank score the specification defines in §4.4, as a function of the
like count, the view count and `age_in_days = max(1, days_since_publish)`. -/
def specRankScore (like_count view_count age_in_days : Nat) : Nat :=
  (like_count * 2 + view_count) / age_in_days

/-- A list of scores is non-increasing. -/
def nonIncreasing (l : List Nat) : Prop := l.Chain' (fun a b => b ≤ a)

/-- Candidate A: zero views, zero likes. -/
def cxRawA : RawItem :=
  { video_id := "A", video_title := "a", channel_name := "c", description := "d",
    thumbnail := "t", publish_date := "2020-01-01T00:00:00Z",
    view_count := 0, like_count := 0 }

/-- Candidate B, discovered after A: 100 views, 10 likes, same publish date
as A (hence the same age in days). -/
def cxRawB : RawItem :=
  { video_id := "B", video_title := "b", channel_name := "c", description := "d",
    thumbnail := "t", publish_date := "2020-01-01T00:00:00Z",
    view_count := 100, like_count := 10 }

/-- A Video-Search stub returning candidates A then B for every keyword. -/
def cxSvcRank : String → Option (List (Option RawItem)) :=
  fun _ => some [some cxRawA, some cxRawB]

/-- C4: the claim is false on the code.  With candidates A (0 views,
0 likes) discovered before B (100 views, 10 likes), both of the same age,
the returned list keeps discovery order [A, B]; the spec rank scores along
the output are [0, 120] (taking the common age to be 1 day), an increasing
sequence, so the output is not ordered non-increasingly by the defined rank
score. -/
theorem c4_rank_counterexample :
    ¬ nonIncreasing (((fetch_youtube_videos cxSvcRank ["q"]).fst.videos).map
        (fun v => specRankScore v.like_count v.view_count 1)) := by
  have h : ((fetch_youtube_videos cxSvcRank ["q"]).fst.videos).map
      (fun v => specRankScore v.like_count v.view_count 1) = [0, 120] := by rfl
  rw [nonIncreasing, h]
  intro hc
  rcases List.chain'_cons.mp hc with ⟨hle, _⟩
  omega

/-- C4 (amended): `fetch_youtube_videos` sorts by the stored score key,
which is constantly 0 because no score is ever stored; the stable sort is
therefore the identity, and the returned videos are the first-occurrence
deduplication of the candidates in discovery order, truncated to
`max_total_videos` — not an ordering by the spec's rank-score formula. -/
theorem c4_sort_is_noop (svc : String → Option (List (Option RawItem)))
    (queries : List String) :
    (fetch_youtube_videos svc queries).fst.videos
        = (dedupByKey videoId (rawVideos svc queries)).take
            YOUTUBE_LIMITS.max_total_videos
    ∧ (∀ v : Video, scoreKey v = 0)
    ∧ (∀ l : List Video, sortByKeyDesc scoreKey l = l) := by
  refine ⟨?_, fun _ => rfl, sortByKeyDesc_scoreKey⟩
  rw [fetch_youtube_videos_eq]

/-- C7: the returned resource set contains each external id at most once;
the videos kept are precisely the first occurrence of each id in discovery
order (`dedupByKey` keeps the head of every id class and preserves order),
truncated to `max_total_videos`. -/
theorem c7_dedup_by_external_id (svc : String → Option (List (Option RawItem)))
    (queries : List String) :
    ((fetch_youtube_videos svc queries).fst.videos.map videoId).Nodup
    ∧ (fetch_youtube_videos svc queries).fst.videos
        = (dedupByKey videoId (rawVideos svc queries)).take
            YOUTUBE_LIMITS.max_total_videos
    ∧ ((fetch_youtube_videos svc queries).fst.videos).Sublist
        (rawVideos svc queries) := by
  rw [fetch_youtube_videos_eq]
  refine ⟨?_, rfl, ?_⟩
  · exact (dedupByKey_keys_nodup videoId (rawVideos svc queries)).sublist
      (List.Sublist.map videoId (List.take_sublist _ _))
  · exact (List.take_sublist _ _).trans (dedupByKey_sublist videoId _)

/-- C10: invariants of the Resource Fetcher's output: `total_videos` is the
length of the truncated video list, the applied limits are the constant
`YOUTUBE_LIMITS` configuration (with `keywords_per_chapter = 5` and
`max_total_videos = 3`), the queried keywords are exactly the first
`keywords_per_chapter` keywords in their given order, and the result
depends on the Video-Search service only at those keywords. -/
theorem c10_fetch_invariants (svc : String → Option (List (Option RawItem)))
    (queries : List String) :
    (fetch_youtube_videos svc queries).fst.total_videos
        = (fetch_youtube_videos svc queries).fst.videos.length
    ∧ (fetch_youtube_videos svc queries).fst.videos.length
        ≤ YOUTUBE_LIMITS.max_total_videos
    ∧ (fetch_youtube_videos svc queries).fst.limits_applied = YOUTUBE_LIMITS
    ∧ (fetch_youtube_videos svc queries).snd
        = queries.take YOUTUBE_LIMITS.keywords_per_chapter
    ∧ YOUTUBE_LIMITS.keywords_per_chapter = 5
    ∧ YOUTUBE_LIMITS.max_total_videos = 3
    ∧ (∀ svc' : String → Option (List (Option RawItem)),
        (∀ q ∈ queries.take YOUTUBE_LIMITS.keywords_per_chapter, svc q = svc' q) →
          fetch_youtube_videos svc queries = fetch_youtube_videos svc' queries) := by
  rw [fetch_youtube_videos_eq]
  refine ⟨rfl, ?_, rfl, rfl, rfl, rfl, ?_⟩
  · simpa using List.length_take_le _ _

  · intro svc' hagree
    have hraw : rawVideos svc queries = rawVideos svc' queries := by
      unfold rawVideos
      apply flatMap_congr_mem
      intro q hq
      rw [hagree q hq]
    rw [hraw, fetch_youtube_videos_eq]

/-- Witness for the service-agreement clause of the C10 theorem at a
concrete input. -/
theorem c10_fetch_invariants_witness :
    fetch_youtube_videos cxSvcRank ["q"]
      = fetch_youtube_videos (fun _ => some [some cxRawA, some cxRawB]) ["q"] :=
  (c10_fetch_invariants cxSvcRank ["q"]).2.2.2.2.2.2
    (fun _ => some [some cxRawA, some cxRawB]) (fun _ _ => rfl)

/-! ## The Model Invoker (`call_bedrock_api`, lines 156-180)

The Bedrock call is abstracted as an oracle `attempt : Nat → AttemptOutcome`
giving the outcome of each attempt by index.  Backoff sleeps
(`time.sleep(2 ** attempt)`, line 177) are returned as an explicit list of
waited durations in seconds, in order. -/

/-- Outcome of one `bedrock_client.invoke_model` attempt: a successful
response text, a `ThrottlingException` (line 174), or any other exception
(line 178). -/
inductive AttemptOutcome where
  | success (text : String)
  | throttle
  | failure (message : String)
deriving DecidableEq, Repr

/-- Errors surfaced by `call_bedrock_api`: the HTTP 500 raised on a
non-throttling exception (line 179), or the HTTP 429 raised after the loop
exhausts its 5 attempts (line 180). -/
inductive CallErr where
  | upstream (message : String)
  | tooManyRequests
deriving DecidableEq, Repr

/-- The `for attempt in range(5)` loop of lines 164-177, with current
attempt index `i` and remaining fuel; a throttled attempt records a wait of
`2 ** attempt` seconds and continues. -/
def bedrockLoop (attempt : Nat → AttemptOutcome) :
    Nat → Nat → Except CallErr String × List Nat
  | _, 0 => (.error .tooManyRequests, [])
  | i, fuel + 1 =>
    match attempt i with
    | .success t => (.ok t, [])
    | .failure m => (.error (.upstream m), [])
    | .throttle =>
      let r := bedrockLoop attempt (i + 1) fuel
      (r.fst, 2 ^ i :: r.snd)

/-- `call_bedrock_api` (lines 156-180): up to 5 attempts starting at
attempt index 0. -/
def call_bedrock_api (attempt : Nat → AttemptOutcome) :
    Except CallErr String × List Nat :=
  bedrockLoop attempt 0 5

/-- C5: retry on throttling with exponential backoff.  (a) Against a stub
that throttles the first 3 attempts and succeeds on the fourth, the call
returns the success text after exactly 3 backoff waits of 1, 2 and 4
seconds.  (b) If all 5 attempts throttle, the call surfaces the rate-limit
error only after the full budget, having waited 2^attempt seconds per
attempt.  (c) A non-throttling failure at attempt k (earlier attempts
throttled) propagates immediately: no further attempt is made and no
further wait is recorded. -/
theorem c5_retry_backoff :
    (∀ (f : Nat → AttemptOutcome) (t : String),
      (∀ i, i < 3 → f i = .throttle) → f 3 = .success t →
        call_bedrock_api f = (.ok t, [1, 2, 4]))
    ∧ (∀ f : Nat → AttemptOutcome,
        (∀ i, i < 5 → f i = .throttle) →
          call_bedrock_api f = (.error .tooManyRequests, [1, 2, 4, 8, 16]))
    ∧ (∀ (f : Nat → AttemptOutcome) (m : String) (k : Nat),
        k < 5 → (∀ i, i < k → f i = .throttle) → f k = .failure m →
          call_bedrock_api f
            = (.error (.upstream m), (List.range k).map (fun i => 2 ^ i))) := by
  refine ⟨?_, ?_, ?_⟩
  · intro f t hthr hs
    have h0 := hthr 0 (by omega)
    have h1 := hthr 1 (by omega)
    have h2 := hthr 2 (by omega)
    simp [call_bedrock_api, bedrockLoop, h0, h1, h2, hs]
  · intro f hthr
    have h0 := hthr 0 (by omega)
    have h1 := hthr 1 (by omega)
    have h2 := hthr 2 (by omega)
    have h3 := hthr 3 (by omega)
    have h4 := hthr 4 (by omega)
    simp [call_bedrock_api, bedrockLoop, h0, h1, h2, h3, h4]
  · intro f m k hk hthr hfail
    interval_cases k
    · simp [call_bedrock_api, bedrockLoop, hfail]
    · have h0 := hthr 0 (by omega)
      simp [call_bedrock_api, bedrockLoop, h0, hfail, List.range_succ]
    · have h0 := hthr 0 (by omega)
      have h1 := hthr 1 (by omega)
      simp [call_bedrock_api, bedrockLoop, h0, h1, hfail, List.range_succ]
    · have h0 := hthr 0 (by omega)
      have h1 := hthr 1 (by omega)
      have h2 := hthr 2 (by omega)
      simp [call_bedrock_api, bedrockLoop, h0, h1, h2, hfail, List.range_succ]
    · have h0 := hthr 0 (by omega)
      have h1 := hthr 1 (by omega)
      have h2 := hthr 2 (by omega)
      have h3 := hthr 3 (by omega)
      simp [call_bedrock_api, bedrockLoop, h0, h1, h2, h3, hfail, List.range_succ]

/-- A stub that throttles the first 3 attempts and then succeeds. -/
def cxThrottleStub : Nat → AttemptOutcome :=
  fun i => if i < 3 then .throttle else .success "generated text"

/-- Witness for C5 at the stub of the spec's retry/backoff test: success
after exactly 3 waits, an always-throttling stub exhausting the budget, and
an immediately-propagating failure stub. -/
theorem c5_retry_backoff_witness :
    call_bedrock_api cxThrottleStub = (.ok "generated text", [1, 2, 4])
    ∧ call_bedrock_api (fun _ => .throttle)
        = (.error .tooManyRequests, [1, 2, 4, 8, 16])
    ∧ call_bedrock_api (fun _ => .failure "boom")
        = (.error (.upstream "boom"), []) :=
  ⟨c5_retry_backoff.1 cxThrottleStub "generated text"
      (fun i hi => by unfold cxThrottleStub; rw [if_pos hi]) rfl,
   c5_retry_backoff.2.1 (fun _ => .throttle) (fun _ _ => rfl),
   c5_retry_backoff.2.2 (fun _ => .failure "boom") "boom" 0 (by omega)
     (fun i hi => absurd hi (by omega)) rfl⟩

/-! ## The JSON value model

`json.loads` returns Python values; the pipeline only ever reads strings,
integers, lists and dicts out of them, so model output is embedded as this
value type.  The parser itself stays an oracle `String → Except String JVal`
(its error message is the `JSONDecodeError` detail). -/

inductive JVal where
  | s (v : String)
  | i (v : Int)
  | arr (xs : List JVal)
  | obj (fields : List (String × JVal))

/-- Dict lookup, `d.get(key)` / `d[key]`. -/
def jGet : List (String × JVal) → String → Option JVal
  | [], _ => none
  | (k, v) :: rest, key => if k = key then some v else jGet rest key

/-! ## The Response Sanitizer (`safe_json_loads`, lines 145-154) -/

/-- A character the regex `[\x00-\x1f\x7f]` of line 147 matches. -/
def isCtrlChar (c : Char) : Bool :=
  decide (c.toNat ≤ 0x1f) || decide (c.toNat = 0x7f)

/-- `re.sub(r"[\x00-\x1f\x7f]", "", response_text)` (line 147). -/
def stripControl (s : String) : String :=
  String.mk (s.data.filter (fun c => !isCtrlChar c))

/-- `safe_json_loads` (lines 145-154): strip control characters, then parse;
on a parse failure, return a typed error carrying the offending text (the
stripped text that was parsed, since line 147 reassigns `response_text`
before `json.loads`) and the parse detail. -/
def safe_json_loads (parse : String → Except String JVal)
    (response_text : String) : Except (String × String) JVal :=
  let stripped := stripControl response_text
  match parse stripped with
  | .ok v => .ok v
  | .error e => .error (stripped, e)

/-- C6: the sanitizer removes exactly the bytes in 0x00-0x1F and 0x7F
(keeping everything else in order, and changing nothing when no such byte
occurs), returns the parsed value when the stripped text parses, and
otherwise fails with a typed error carrying the offending text that was
parsed together with the parse detail; stripping is idempotent and the
function is pure by construction. -/
theorem c6_sanitizer (parse : String → Except String JVal) (s : String) :
    (∀ c ∈ (stripControl s).data, ¬(c.toNat ≤ 0x1f ∨ c.toNat = 0x7f))
    ∧ (stripControl s).data.Sublist s.data
    ∧ ((∀ c ∈ s.data, ¬(c.toNat ≤ 0x1f ∨ c.toNat = 0x7f)) → stripControl s = s)
    ∧ (∀ v, parse (stripControl s) = .ok v → safe_json_loads parse s = .ok v)
    ∧ (∀ e, parse (stripControl s) = .error e →
        safe_json_loads parse s = .error (stripControl s, e))
    ∧ stripControl (stripControl s) = stripControl s := by
  refine ⟨?_, ?_, ?_, ?_, ?_, ?_⟩
  · intro c hc
    have hb := List.of_mem_filter hc
    simp only [isCtrlChar, Bool.not_or, Bool.and_eq_true, Bool.not_eq_true',
      decide_eq_false_iff_not] at hb
    intro hor
    cases hor with
    | inl h => exact hb.1 h
    | inr h => exact hb.2 h
  · exact List.filter_sublist _
  · intro hclean
    have hfil : s.data.filter (fun c => !isCtrlChar c) = s.data := by
      apply List.filter_eq_self.mpr
      intro c hc
      have := hclean c hc
      simp only [isCtrlChar, Bool.not_or, Bool.and_eq_true, Bool.not_eq_true',
        decide_eq_false_iff_not]
      exact ⟨fun h => this (Or.inl h), fun h => this (Or.inr h)⟩
    unfold stripControl
    rw [hfil]
  · intro v hok
    simp [safe_json_loads, hok]
  · intro e herr
    simp [safe_json_loads, herr]
  · unfold stripControl
    rw [List.filter_filter]
    congr 1
    apply List.filter_congr
    intro c _
    cases h : isCtrlChar c <;> simp [h]

/-- A concrete parse oracle for the sanitizer witness: accepts exactly the
text with the tab removed. -/
def cxParse : String → Except String JVal :=
  fun t => if t = "ab" then .ok (.s "v") else .error "Expecting value"

/-- Witness for C6: on input "a\tb" (a 0x09 control byte inside), stripping
yields "ab", which the oracle parses; and on input "x" the stripped text
fails to parse and the typed error carries the stripped text and detail. -/
theorem c6_sanitizer_witness :
    safe_json_loads cxParse "a\tb" = .ok (.s "v")
    ∧ safe_json_loads cxParse "x" = .error ("x", "Expecting value") :=
  ⟨(c6_sanitizer cxParse "a\tb").2.2.2.1 (.s "v") rfl,
   (c6_sanitizer cxParse "x").2.2.2.2.1 "Expecting value" rfl⟩


/-! ## Request and response data model (lines 68-143)

Enums are embedded as inductives; pydantic models as structures.  Pydantic
v1 type coercions (e.g. int-to-str) are not modelled: model output is
required to be well-typed, and a mistyped payload is a validation error.
The nested `metadata` dict of `LearningPathResponse` is flattened into
`metadata_*` fields. -/

inductive CourseCategory where
  | technical
  | math
  | science
  | history
  | literature
  | business
  | health
  | general
deriving DecidableEq, Repr

inductive DifficultyLevel where
  | beginner
  | intermediate
  | advanced
deriving DecidableEq, Repr

/-- The string value of the `DifficultyLevel(str, Enum)` member, which is
what lands in `course_data["difficulty"]`. -/
def DifficultyLevel.val : DifficultyLevel → String
  | .beginner => "Beginner"
  | .intermediate => "Intermediate"
  | .advanced => "Advanced"

inductive OutputStyle where
  | educational
  | conversational
  | formal
  | storytelling
deriving DecidableEq, Repr

/-- `MODEL_IDS` (lines 30-39).  Every `CourseCategory` member is a key of
the dict, so `MODEL_IDS.get(request.category, MODEL_IDS["General"])`
(line 355) never takes its default; the mapping is total. -/
def MODEL_IDS : CourseCategory → String
  | .technical => "us.anthropic.claude-3-5-sonnet-20241022-v2:0"
  | .math => "us.anthropic.claude-3-5-sonnet-20241022-v2:0"
  | .science => "anthropic.claude-3-sonnet-20240229-v1:0"
  | .history => "anthropic.claude-3-sonnet-20240229-v1:0"
  | .literature => "anthropic.claude-3-sonnet-20240229-v1:0"
  | .business => "anthropic.claude-3-sonnet-20240229-v1:0"
  | .health => "amazon.titan-text-express-v1"
  | .general => "us.anthropic.claude-3-5-sonnet-20241022-v2:0"

/-- `CourseRequest` (lines 129-135). -/
structure CourseRequest where
  topic : String
  description : String
  category : CourseCategory
  difficulty : DifficultyLevel
  chapters : Nat
  tone_output_style : OutputStyle
deriving DecidableEq, Repr

/-- `KeyConcept` (lines 107-109). -/
structure KeyConcept where
  title : String
  explanation : String
deriving DecidableEq, Repr

/-- `ChapterContent` (lines 111-119). -/
structure ChapterContent where
  chapter_number : Int
  chapter_title : String
  learning_objectives : List String
  key_concepts : List KeyConcept
  practical_applications : List String
  study_notes : String
  youtube_keywords : List String
  videos : Option YouTubeResources
deriving DecidableEq, Repr

/-- `LearningPathSummary` (lines 121-127). -/
structure LearningPathSummary where
  overview : String
  time_commitment : String
  assessment_methods : List String
  next_steps : List String
  recommended_study_links : List String
  course_summary : Option String
deriving DecidableEq, Repr

/-- `LearningPathResponse` (lines 137-143), metadata flattened. -/
structure LearningPathResponse where
  course_title : String
  difficulty : String
  description : String
  chapters : List ChapterContent
  learning_path_summary : LearningPathSummary
  metadata_generated_at : String
  metadata_youtube_resources_count : Nat
  metadata_total_chapters : Nat
  metadata_s3_uri : String
deriving DecidableEq, Repr

/-- The `course_data` dict assembled at lines 407-425 and handed to
`upload_course_to_s3`, metadata flattened. -/
structure CourseData where
  course_title : String
  difficulty : String
  description : String
  chapters : List ChapterContent
  learning_path_summary : LearningPathSummary
  metadata_generated_at : String
  metadata_youtube_resources_count : Nat
  metadata_total_chapters : Nat
deriving DecidableEq, Repr

/-! ## Prompt builders (lines 249-341)

Prompt text is opaque input to the external model; prompts are embedded
structurally, keeping exactly the parameters the corresponding builder of
the source interpolates into its template. -/

inductive Prompt where
  | intro (req : CourseRequest)
  | chapter (req : CourseRequest) (intro_text : String)
      (chapter_title : String) (chapter_number : Int)
  | summary (course_title : String) (chapter_titles : List String)
deriving DecidableEq, Repr

/-- One outline chapter as consumed by the orchestrator: of the outline
object the source only ever reads `chapter_number` and `chapter_title`. -/
structure OutlineChapter where
  chapter_number : Int
  chapter_title : String
deriving DecidableEq, Repr

/-- `build_intro_prompt` (lines 298-306), via `generate_prompt`: the whole
request is interpolated. -/
def build_intro_prompt (req : CourseRequest) : Prompt :=
  .intro req

/-- `build_chapter_prompt` (lines 308-341). -/
def build_chapter_prompt (req : CourseRequest) (intro : String)
    (chapter_title : String) (chapter_number : Int) : Prompt :=
  .chapter req intro chapter_title chapter_number

/-- `build_course_summary_prompt` (lines 249-257): of the chapter dicts only
the `chapter_title` fields are interpolated (chapter titles only). -/
def build_course_summary_prompt (course_title : String)
    (chapters : List OutlineChapter) : Prompt :=
  .summary course_title (chapters.map (fun c => c.chapter_title))

/-- The `intro_text` continuity context built at lines 370-372. -/
def mkIntroText (description : String) (chapters : List OutlineChapter) : String :=
  description ++ "\n\nChapters:\n" ++
    String.intercalate "\n"
      (chapters.map (fun c => toString c.chapter_number ++ ". " ++ c.chapter_title))

/-! ## Outline extraction and chapter repair -/

/-- Sequential fail-fast mapping, the shape of every loop in the pipeline
that aborts on the first raised exception. -/
def exceptMapM (f : α → Except ε β) : List α → Except ε (List β)
  | [] => .ok []
  | x :: xs =>
    match f x with
    | .error e => .error e
    | .ok y =>
      match exceptMapM f xs with
      | .error e => .error e
      | .ok ys => .ok (y :: ys)

/-- Field access on a JSON value that must be a dict. -/
def jGetV : JVal → String → Option JVal
  | .obj fields, key => jGet fields key
  | _, _ => none

/-- Reading `c["chapter_number"]` and `c["chapter_title"]` of one outline
chapter dict (lines 371 and 376-381); a missing key is a `KeyError`, a
mistyped value a failure of the arithmetic/interpolation that consumes it. -/
def extractOutlineChapter : JVal → Except String OutlineChapter
  | .obj fields =>
    match jGet fields "chapter_number", jGet fields "chapter_title" with
    | some (.i n), some (.s t) => .ok { chapter_number := n, chapter_title := t }
    | _, _ => .error "KeyError: chapter_number or chapter_title"
  | _ => .error "TypeError: outline chapter is not an object"

/-- The intro fields the orchestrator reads before the chapter loop
(lines 370-372): `description` and the `chapters` list. -/
structure IntroOutline where
  description : String
  chapters : List OutlineChapter
deriving DecidableEq, Repr

def extractIntro : JVal → Except String IntroOutline
  | .obj fields =>
    match jGet fields "description", jGet fields "chapters" with
    | some (.s d), some (.arr cs) =>
      match exceptMapM extractOutlineChapter cs with
      | .error e => .error e
      | .ok chs => .ok { description := d, chapters := chs }
    | _, _ => .error "KeyError: description or chapters"
  | _ => .error "TypeError: intro payload is not an object"

/-- A JSON array whose elements must all be strings. -/
def jStrings : List JVal → Option (List String)
  | [] => some []
  | .s v :: rest => (jStrings rest).map (fun vs => v :: vs)
  | _ => none

/-- The key-concept normalisation of lines 346-349:
`{"title": c.get("title", c.get("concept", "")), "explanation": c.get("explanation", "")}`,
then pydantic string validation. -/
def fixKeyConcept : JVal → Except String KeyConcept
  | .obj f =>
    match (jGet f "title").getD ((jGet f "concept").getD (.s "")),
          (jGet f "explanation").getD (.s "") with
    | .s t, .s e => .ok { title := t, explanation := e }
    | _, _ => .error "ValidationError: key_concepts entry"
  | _ => .error "AttributeError: key_concepts entry has no attribute get"

/-- `fix_ai_chapter_format(chapter, index)` (lines 343-350): overwrite
`chapter_number` with `index + 1`, normalise `key_concepts`, then validate
as `ChapterContent`.  A missing or mistyped required field is a pydantic
`ValidationError`; the model dict never carries a `videos` payload, so
`videos` validates to its `None` default. -/
def fix_ai_chapter_format : JVal → Int → Except String ChapterContent
  | .obj fields, index =>
    match jGet fields "key_concepts" with
    | none => .error "ValidationError: key_concepts field required"
    | some (.arr items) =>
      match exceptMapM fixKeyConcept items with
      | .error e => .error e
      | .ok kcs =>
        match jGet fields "chapter_title", jGet fields "learning_objectives",
              jGet fields "practical_applications", jGet fields "study_notes",
              jGet fields "youtube_keywords" with
        | some (.s title), some (.arr lo), some (.arr pa), some (.s notes),
            some (.arr yk) =>
          match jStrings lo, jStrings pa, jStrings yk with
          | some lo2, some pa2, some yk2 =>
            .ok { chapter_number := index + 1
                  chapter_title := title
                  learning_objectives := lo2
                  key_concepts := kcs
                  practical_applications := pa2
                  study_notes := notes
                  youtube_keywords := yk2
                  videos := none }
          | _, _, _ => .error "ValidationError: list field entries"
        | _, _, _, _, _ => .error "ValidationError: missing or mistyped field"
    | some _ => .error "TypeError: key_concepts is not a list"
  | _, _ => .error "ValidationError: chapter payload is not an object"

/-! ## The Pipeline Orchestrator (`generate_learning_path`, lines 352-447)

External effects are oracles collected in `Env`.  The per-call attempt
oracle feeds `call_bedrock_api`; `jsonLoads` is `json.loads`; `s3put` is
the `put_object` of `upload_course_to_s3` (lines 449-469), keyed by the
object key (an error models a raised exception, in which case nothing is
stored).  The result carries the list of successfully persisted
`(key, course_data)` pairs, so persistence is observable.  The outer
`except Exception` of lines 446-447 re-wraps every raised error into an
HTTP 500 with its stringified detail; the structured cause is kept here, as
the wrapping neither prevents the abort nor persists anything. -/

structure Env where
  bedrock : String → Prompt → Nat → AttemptOutcome
  jsonLoads : String → Except String JVal
  videoSearch : String → Option (List (Option RawItem))
  s3put : String → CourseData → Except String Unit
  bucket : String
  folder : String
  generatedAt : String
  nowUnix : Nat

inductive PipeErr where
  | call (e : CallErr)
  | introJson (detail : String) (raw : String)
  | introKey (message : String)
  | chapterJson (stripped : String) (detail : String)
  | chapterFormat (message : String)
  | s3 (message : String)
deriving DecidableEq, Repr

/-- `course_title.replace(" ", "_")` of line 428. -/
def replaceSpaces (s : String) : String :=
  String.mk (s.data.map (fun c => if c = ' ' then '_' else c))

/-- Python `str.strip()` whitespace test (space, \t, \n, \v, \f, \r). -/
def isPySpace (c : Char) : Bool :=
  decide (c.toNat = 32) || (decide (9 ≤ c.toNat) && decide (c.toNat ≤ 13))

/-- Python `str.strip()` (line 404). -/
def pyStrip (s : String) : String :=
  String.mk (((s.data.dropWhile isPySpace).reverse.dropWhile isPySpace).reverse)

/-- The hard-coded overview string of line 413. -/
def fixedOverview : String :=
  "This course provides a deep dive into the topic with practical chapters and visual resources."

/-- The outline stage (lines 355-372): build the intro prompt, invoke the
model, `json.loads` the response (no control-character stripping here), and
read the fields used to build `intro_text`. -/
def introStage (env : Env) (req : CourseRequest) :
    Except PipeErr (JVal × IntroOutline × String) :=
  match (call_bedrock_api (env.bedrock (MODEL_IDS req.category)
      (build_intro_prompt req))).fst with
  | .error e => .error (.call e)
  | .ok intro_response =>
    match env.jsonLoads intro_response with
    | .error d => .error (.introJson d intro_response)
    | .ok intro_data =>
      match extractIntro intro_data with
      | .error m => .error (.introKey m)
      | .ok outline =>
        .ok (intro_data, outline, mkIntroText outline.description outline.chapters)

/-- One iteration of the chapter loop (lines 375-388): chapter prompt,
model call, `safe_json_loads`, `fix_ai_chapter_format` at index
`chapter["chapter_number"] - 1`, then best-effort video enrichment. -/
def chapterStage (env : Env) (req : CourseRequest) (intro_text : String)
    (c : OutlineChapter) : Except PipeErr ChapterContent :=
  match (call_bedrock_api (env.bedrock (MODEL_IDS req.category)
      (build_chapter_prompt req intro_text c.chapter_title c.chapter_number))).fst with
  | .error e => .error (.call e)
  | .ok chapter_response =>
    match safe_json_loads env.jsonLoads chapter_response with
    | .error (raw, d) => .error (.chapterJson raw d)
    | .ok chapter_data =>
      match fix_ai_chapter_format chapter_data (c.chapter_number - 1) with
      | .error m => .error (.chapterFormat m)
      | .ok chapter_model =>
        let yt := (fetch_youtube_videos env.videoSearch
          chapter_model.youtube_keywords).fst
        .ok { chapter_model with videos := some yt }

/-- The study-link accumulation for one chapter (lines 392-396); the
truthiness guard on `chapter.videos` is equivalent to folding over an empty
list. -/
def chapterLinksAcc (acc : List String) (c : ChapterContent) : List String :=
  match c.videos with
  | none => acc
  | some y => y.videos.foldl
      (fun acc2 v => dedupStepBy (fun x : String => x) acc2 v.video_link) acc

/-- `study_links` before truncation (lines 391-396): first occurrence of
each link, chapters in order, each chapter's videos in stored order. -/
def collectStudyLinks (chapters : List ChapterContent) : List String :=
  chapters.foldl chapterLinksAcc []

/-- `sum(len(c.videos.videos) for c in full_chapters)` (line 422); in the
pipeline every chapter's `videos` is set, so the `none` branch (which would
raise in Python) is unreachable there. -/
def resourcesCount (chapters : List ChapterContent) : Nat :=
  (chapters.map (fun c =>
    match c.videos with
    | none => 0
    | some y => y.videos.length)).sum

/-- The object key of `upload_course_to_s3` (lines 428 and 458-460):
`{folder}/{title with spaces underscored}_{unix timestamp}.json`. -/
def buildKey (env : Env) (course_title : String) : String :=
  env.folder ++ "/" ++ replaceSpaces course_title ++ "_"
    ++ toString env.nowUnix ++ ".json"

/-- The `course_data` dict assembled at lines 407-425: the fixed summary
skeleton with the truncated study links and the stripped narrative summary,
plus metadata. -/
def buildCourseData (env : Env) (req : CourseRequest) (course_title : String)
    (full_chapters : List ChapterContent) (summary_raw : String) : CourseData :=
  { course_title := course_title
    difficulty := req.difficulty.val
    description := req.description
    chapters := full_chapters
    learning_path_summary :=
      { overview := fixedOverview
        time_commitment := "Approx. 1–2 weeks"
        assessment_methods := ["Quizzes", "Mini Projects", "Discussions"]
        next_steps :=
          ["Explore advanced topics", "Join communities", "Apply knowledge"]
        recommended_study_links := (collectStudyLinks full_chapters).take 5
        course_summary := some (pyStrip summary_raw) }
    metadata_generated_at := env.generatedAt
    metadata_youtube_resources_count := resourcesCount full_chapters
    metadata_total_chapters := full_chapters.length }

/-- The `LearningPathResponse` returned at lines 434-444: the course data
plus the `s3_uri` metadata entry. -/
def buildResponse (env : Env) (cd : CourseData) (key : String) :
    LearningPathResponse :=
  { course_title := cd.course_title
    difficulty := cd.difficulty
    description := cd.description
    chapters := cd.chapters
    learning_path_summary := cd.learning_path_summary
    metadata_generated_at := cd.metadata_generated_at
    metadata_youtube_resources_count := cd.metadata_youtube_resources_count
    metadata_total_chapters := cd.metadata_total_chapters
    metadata_s3_uri := "s3://" ++ env.bucket ++ "/" ++ key }

/-- The aggregation-and-persistence tail of `generate_learning_path`
(lines 390-444), split out for lemma reuse: read
`intro_data["course_title"]` (line 401), request the narrative summary —
whose failure propagates, there is no fallback — assemble `course_data`,
upload to S3, and return the response recording the persisted pair. -/
def aggregateStage (env : Env) (req : CourseRequest) (intro_data : JVal)
    (outline : IntroOutline) (full_chapters : List ChapterContent) :
    Except PipeErr LearningPathResponse × List (String × CourseData) :=
  match jGetV intro_data "course_title" with
  | some (.s course_title) =>
    match (call_bedrock_api (env.bedrock (MODEL_IDS req.category)
        (build_course_summary_prompt course_title outline.chapters))).fst with
    | .error e => (.error (.call e), [])
    | .ok summary_raw =>
      match env.s3put (buildKey env course_title)
          (buildCourseData env req course_title full_chapters summary_raw) with
      | .error m => (.error (.s3 m), [])
      | .ok _ =>
        (.ok (buildResponse env
            (buildCourseData env req course_title full_chapters summary_raw)
            (buildKey env course_title)),
         [(buildKey env course_title,
           buildCourseData env req course_title full_chapters summary_raw)])
  | _ => (.error (.introKey "KeyError: course_title"), [])

/-- `generate_learning_path` (lines 352-447) plus the `upload_course_to_s3`
persistence call (line 429).  The second component lists the
`(key, course_data)` pairs actually persisted. -/
def generate_learning_path (env : Env) (req : CourseRequest) :
    Except PipeErr LearningPathResponse × List (String × CourseData) :=
  match introStage env req with
  | .error e => (.error e, [])
  | .ok (intro_data, outline, intro_text) =>
    match exceptMapM (chapterStage env req intro_text) outline.chapters with
    | .error e => (.error e, [])
    | .ok full_chapters => aggregateStage env req intro_data outline full_chapters


/-! ## Pipeline lemmas -/

/-- `fix_ai_chapter_format` always returns `index + 1` as the chapter
number: line 344 overwrites whatever numbering the model emitted. -/
theorem fix_ai_chapter_format_number (j : JVal) (i : Int) (cm : ChapterContent)
    (h : fix_ai_chapter_format j i = .ok cm) : cm.chapter_number = i + 1 := by
  cases j with
  | s v => exact absurd h (by simp [fix_ai_chapter_format])
  | i v => exact absurd h (by simp [fix_ai_chapter_format])
  | arr xs => exact absurd h (by simp [fix_ai_chapter_format])
  | obj fields =>
    unfold fix_ai_chapter_format at h
    repeat' split at h
    all_goals simp_all
    all_goals rw [← h]

/-- A successfully generated chapter carries the outline entry's
`chapter_number`: the loop passes `chapter["chapter_number"] - 1` as the
index (line 385), and the repair writes back `index + 1`. -/
theorem chapterStage_number (env : Env) (req : CourseRequest) (it : String)
    (c : OutlineChapter) (cm : ChapterContent)
    (h : chapterStage env req it c = .ok cm) :
    cm.chapter_number = c.chapter_number := by
  unfold chapterStage at h
  split at h
  · simp at h
  · split at h
    · simp at h
    · split at h
      · simp at h
      · rename_i chapter_model hfix
        simp only [Except.ok.injEq] at h
        subst h
        have hn := fix_ai_chapter_format_number _ _ _ hfix
        show chapter_model.chapter_number = c.chapter_number
        rw [hn]
        omega

/-- A successful fail-fast map produces one output per input, each related
to its input. -/
theorem exceptMapM_ok_forall {f : α → Except ε β} (r : α → β → Prop)
    (hr : ∀ a b, f a = .ok b → r a b) :
    ∀ (l : List α) (out : List β), exceptMapM f l = .ok out →
      out.length = l.length ∧ List.Forall₂ r l out := by
  intro l
  induction l with
  | nil =>
    intro out h
    simp only [exceptMapM] at h
    cases h
    exact ⟨rfl, List.Forall₂.nil⟩
  | cons x xs ih =>
    intro out h
    simp only [exceptMapM] at h
    cases hx : f x with
    | error e => rw [hx] at h; cases h
    | ok y =>
      rw [hx] at h
      cases hxs : exceptMapM f xs with
      | error e => rw [hxs] at h; cases h
      | ok ys =>
        rw [hxs] at h
        cases h
        obtain ⟨hlen, hall⟩ := ih ys hxs
        exact ⟨by simp [hlen], List.Forall₂.cons (hr x y hx) hall⟩

/-- When each step of one fail-fast map is the step of another with a pure
post-map, the whole maps are related pointwise. -/
theorem exceptMapM_map_eq {f : α → Except ε β} {g : α → Except ε γ}
    (h : β → γ) (hg : ∀ a, g a = (f a).map h) (l : List α) :
    exceptMapM g l = (exceptMapM f l).map (List.map h) := by
  induction l with
  | nil => rfl
  | cons x xs ih =>
    simp only [exceptMapM, hg x, ih]
    cases f x with
    | error e => rfl
    | ok y =>
      cases exceptMapM f xs with
      | error e => rfl
      | ok ys => rfl

/-- Chapter numbers of a successful chapter loop are the outline numbers,
in order. -/
theorem forall2_map_eq {r : α → β → Prop} {f : α → γ} {g : β → γ}
    (hfg : ∀ a b, r a b → g b = f a) :
    ∀ {l₁ : List α} {l₂ : List β}, List.Forall₂ r l₁ l₂ → l₂.map g = l₁.map f := by
  intro l₁ l₂ hall
  induction hall with
  | nil => rfl
  | cons hrel hrest ihrest => simp only [List.map_cons, hfg _ _ hrel, ihrest]

/-- Chapter numbers of a successful chapter loop are the outline numbers,
in order. -/
theorem exceptMapM_chapterStage_numbers (env : Env) (req : CourseRequest)
    (it : String) (cs : List OutlineChapter) (out : List ChapterContent)
    (h : exceptMapM (chapterStage env req it) cs = .ok out) :
    out.map (fun cm => cm.chapter_number) = cs.map (fun c => c.chapter_number) := by
  obtain ⟨hlen, hall⟩ := exceptMapM_ok_forall
    (fun c cm => cm.chapter_number = c.chapter_number)
    (fun c cm hc => chapterStage_number env req it c cm hc) cs out h
  exact forall2_map_eq (fun c cm hc => hc) hall

/-- Successful aggregation pins down the response's shape: the chapters are
the generated ones, the overview is the fixed template string, and the
recommended links are the truncated dedup of the chapter links. -/
theorem aggregateStage_ok_shape (env : Env) (req : CourseRequest)
    (intro_data : JVal) (outline : IntroOutline)
    (full_chapters : List ChapterContent) (resp : LearningPathResponse)
    (h : (aggregateStage env req intro_data outline full_chapters).fst = .ok resp) :
    resp.chapters = full_chapters
    ∧ resp.learning_path_summary.overview = fixedOverview
    ∧ resp.learning_path_summary.recommended_study_links
        = (collectStudyLinks full_chapters).take 5
    ∧ resp.metadata_total_chapters = full_chapters.length := by
  unfold aggregateStage at h
  split at h
  · split at h
    · simp at h
    · split at h
      · simp at h
      · simp only [Except.ok.injEq] at h
        subst h
        exact ⟨rfl, rfl, rfl, rfl⟩
  · simp at h

/-- Aggregation either aborts with an error and persists nothing, or
succeeds and persists exactly the one complete document it returns. -/
theorem aggregateStage_cases (env : Env) (req : CourseRequest)
    (intro_data : JVal) (outline : IntroOutline)
    (full_chapters : List ChapterContent) :
    (∃ e, aggregateStage env req intro_data outline full_chapters
        = (.error e, []))
    ∨ (∃ resp kcd, aggregateStage env req intro_data outline full_chapters
        = (.ok resp, [kcd])
        ∧ resp.chapters = kcd.snd.chapters ∧ kcd.snd.chapters = full_chapters) := by
  unfold aggregateStage
  split
  · split
    · exact Or.inl ⟨_, rfl⟩
    · split
      · exact Or.inl ⟨_, rfl⟩
      · exact Or.inr ⟨_, _, rfl, rfl, rfl⟩
  · exact Or.inl ⟨_, rfl⟩

/-- The whole pipeline either aborts with an error having persisted
nothing, or succeeds having persisted exactly the returned document. -/
theorem generate_learning_path_cases (env : Env) (req : CourseRequest) :
    (∃ e, generate_learning_path env req = (.error e, []))
    ∨ (∃ resp kcd, generate_learning_path env req = (.ok resp, [kcd])
        ∧ resp.chapters = kcd.snd.chapters) := by
  unfold generate_learning_path
  split
  · exact Or.inl ⟨_, rfl⟩
  · next intro_data outline intro_text hI =>
      split
      · exact Or.inl ⟨_, rfl⟩
      · next full_chapters hM =>
        rcases aggregateStage_cases env req intro_data outline full_chapters with
          ⟨e, he⟩ | ⟨resp, kcd, hok, hrk, _⟩
        · exact Or.inl ⟨e, he⟩
        · exact Or.inr ⟨resp, kcd, hok, hrk⟩

/-- A successful pipeline run went through a successful chapter loop whose
output is the response's chapter list. -/
theorem generate_learning_path_ok_chapters (env : Env) (req : CourseRequest)
    (intro_data : JVal) (outline : IntroOutline) (intro_text : String)
    (resp : LearningPathResponse)
    (hI : introStage env req = .ok (intro_data, outline, intro_text))
    (hresp : (generate_learning_path env req).fst = .ok resp) :
    ∃ full_chapters,
      exceptMapM (chapterStage env req intro_text) outline.chapters
          = .ok full_chapters
      ∧ resp.chapters = full_chapters := by
  unfold generate_learning_path at hresp
  split at hresp
  · rename_i e heq
    rw [hI] at heq
    cases heq
  · rename_i intro_data2 outline2 intro_text2 heq
    rw [hI] at heq
    injection heq with heq2
    injection heq2 with h1 h23
    injection h23 with h2 h3
    subst h1
    subst h2
    subst h3
    split at hresp
    · simp at hresp
    · rename_i full_chapters hM
      exact ⟨full_chapters, hM, (aggregateStage_ok_shape _ _ _ _ _ _ hresp).1⟩

/-! ## A concrete run of the pipeline

Deterministic oracles: the model returns marker texts, the JSON oracle
parses them into fixed structured values, the video service always fails,
the store always accepts.  The outline deliberately numbers its two
chapters 2 then 1, and the chapter bodies claim to be chapter 7. -/

def cxReq : CourseRequest :=
  { topic := "T", description := "D", category := .general,
    difficulty := .beginner, chapters := 2, tone_output_style := .educational }

def cxIntroJ : JVal :=
  .obj [("course_title", .s "T C"),
        ("description", .s "D"),
        ("chapters", .arr [
          .obj [("chapter_number", .i 2), ("chapter_title", .s "B")],
          .obj [("chapter_number", .i 1), ("chapter_title", .s "A")]])]

/-- A chapter body whose own `chapter_number` is a wrong 7. -/
def cxChapterJ (t : String) : JVal :=
  .obj [("chapter_number", .i 7),
        ("chapter_title", .s t),
        ("learning_objectives", .arr [.s "lo"]),
        ("key_concepts", .arr [.obj [("title", .s "k"), ("explanation", .s "e")]]),
        ("practical_applications", .arr [.s "pa"]),
        ("study_notes", .s "n"),
        ("youtube_keywords", .arr [.s "kw"])]

def cxBedrock : String → Prompt → Nat → AttemptOutcome :=
  fun _ p _ =>
    match p with
    | .intro _ => .success "INTRO"
    | .chapter _ _ t _ => .success ("CH " ++ t)
    | .summary _ _ => .success "SUM"

def cxJson : String → Except String JVal :=
  fun s =>
    if s = "INTRO" then .ok cxIntroJ
    else if s = "CH A" then .ok (cxChapterJ "A")
    else if s = "CH B" then .ok (cxChapterJ "B")
    else .error "Expecting value"

def cxEnv : Env :=
  { bedrock := cxBedrock, jsonLoads := cxJson, videoSearch := fun _ => none,
    s3put := fun _ _ => .ok (), bucket := "bkt", folder := "courses",
    generatedAt := "2025-01-01 00:00:00", nowUnix := 1700000000 }

def cxOutlineVal : IntroOutline :=
  { description := "D",
    chapters := [{ chapter_number := 2, chapter_title := "B" },
                 { chapter_number := 1, chapter_title := "A" }] }

/-- C1: the claim is false on the code.  With `chapter_count = 2` and an
outline whose entries are numbered 2 then 1, the run succeeds and the
returned chapters are numbered [2, 1], not 1..2: the loop passes the
outline's own `chapter_number - 1` as the repair index, so numbering
follows the outline's stated numbers, not list position, and neither the
request's chapter count nor 1..N density is enforced. -/
theorem c1_numbering_counterexample :
    cxReq.chapters = 2
    ∧ introStage cxEnv cxReq
        = .ok (cxIntroJ, cxOutlineVal, mkIntroText "D" cxOutlineVal.chapters)
    ∧ ((generate_learning_path cxEnv cxReq).fst.map
        (fun r => r.chapters.map (fun c => c.chapter_number))) = .ok [2, 1] :=
  ⟨rfl, rfl, rfl⟩

/-- C1 (amended): each successfully returned chapter's `chapter_number` is
overwritten with `index + 1` where the index is the outline entry's own
`chapter_number - 1` (the chapter-body model's numbering is never
trusted); consequently the document's chapter numbers are exactly the
outline's stated numbers in outline order, one chapter per outline entry —
they are 1..N precisely when the outline stage returned N entries numbered
1..N in order, which is requested of the model but not enforced. -/
theorem c1_numbering_amended (env : Env) (req : CourseRequest) :
    (∀ intro_data outline intro_text resp,
      introStage env req = .ok (intro_data, outline, intro_text) →
      (generate_learning_path env req).fst = .ok resp →
        resp.chapters.map (fun c => c.chapter_number)
            = outline.chapters.map (fun c => c.chapter_number)
          ∧ resp.chapters.length = outline.chapters.length)
    ∧ (∀ j i cm, fix_ai_chapter_format j i = .ok cm →
        cm.chapter_number = i + 1) := by
  constructor
  · intro intro_data outline intro_text resp hI hresp
    obtain ⟨full_chapters, hM, hch⟩ :=
      generate_learning_path_ok_chapters env req intro_data outline intro_text
        resp hI hresp
    have hnum := exceptMapM_chapterStage_numbers env req intro_text
      outline.chapters full_chapters hM
    rw [hch]
    refine ⟨hnum, ?_⟩
    have := congrArg List.length hnum
    simpa using this
  · exact fun j i cm h => fix_ai_chapter_format_number j i cm h

/-- The repaired chapter A at index 0. -/
def cxFixedA : ChapterContent :=
  { chapter_number := 1, chapter_title := "A", learning_objectives := ["lo"],
    key_concepts := [{ title := "k", explanation := "e" }],
    practical_applications := ["pa"], study_notes := "n",
    youtube_keywords := ["kw"], videos := none }

/-- The empty resource set produced when every lookup fails. -/
def emptyResources : YouTubeResources :=
  { total_videos := 0, videos := [], limits_applied := YOUTUBE_LIMITS }

def cxChB : ChapterContent :=
  { chapter_number := 2, chapter_title := "B", learning_objectives := ["lo"],
    key_concepts := [{ title := "k", explanation := "e" }],
    practical_applications := ["pa"], study_notes := "n",
    youtube_keywords := ["kw"], videos := some emptyResources }

def cxChA : ChapterContent :=
  { cxChB with chapter_number := 1, chapter_title := "A" }

/-- The response the concrete run returns. -/
def cxRespVal : LearningPathResponse :=
  { course_title := "T C", difficulty := "Beginner", description := "D",
    chapters := [cxChB, cxChA],
    learning_path_summary :=
      { overview := fixedOverview
        time_commitment := "Approx. 1–2 weeks"
        assessment_methods := ["Quizzes", "Mini Projects", "Discussions"]
        next_steps :=
          ["Explore advanced topics", "Join communities", "Apply knowledge"]
        recommended_study_links := []
        course_summary := some "SUM" }
    metadata_generated_at := "2025-01-01 00:00:00"
    metadata_youtube_resources_count := 0
    metadata_total_chapters := 2
    metadata_s3_uri := "s3://bkt/courses/T_C_1700000000.json" }

/-- Witness for the amended C1 at the concrete run: the returned numbers
equal the outline numbers [2, 1], and the repair stamps index + 1. -/
theorem c1_numbering_amended_witness :
    (cxRespVal.chapters.map (fun c => c.chapter_number)
        = cxOutlineVal.chapters.map (fun c => c.chapter_number))
    ∧ cxFixedA.chapter_number = (0 : Int) + 1 :=
  ⟨((c1_numbering_amended cxEnv cxReq).1 cxIntroJ cxOutlineVal
      (mkIntroText "D" cxOutlineVal.chapters) cxRespVal rfl rfl).1,
   (c1_numbering_amended cxEnv cxReq).2 (cxChapterJ "A") 0 cxFixedA rfl⟩

/-- C2: persistence only after full success.  An error result persists
nothing; everything persisted belongs to a successful run and carries that
run's complete chapter list; an outline-stage failure aborts the request
with that error and an empty persistence trace; so does a failure of any
chapter's generation or parse (the chapter loop's first error). -/
theorem c2_no_partial_persistence (env : Env) (req : CourseRequest) :
    (∀ e, (generate_learning_path env req).fst = .error e →
        (generate_learning_path env req).snd = [])
    ∧ (∀ kcd, kcd ∈ (generate_learning_path env req).snd →
        ∃ resp, (generate_learning_path env req).fst = .ok resp
          ∧ kcd.snd.chapters = resp.chapters)
    ∧ (∀ e, introStage env req = .error e →
        generate_learning_path env req = (.error e, []))
    ∧ (∀ intro_data outline intro_text e,
        introStage env req = .ok (intro_data, outline, intro_text) →
        exceptMapM (chapterStage env req intro_text) outline.chapters = .error e →
          generate_learning_path env req = (.error e, [])) := by
  refine ⟨?_, ?_, ?_, ?_⟩
  · intro e h
    rcases generate_learning_path_cases env req with ⟨e2, he⟩ | ⟨resp, kcd, hok, _⟩
    · rw [he]
    · rw [hok] at h
      simp at h
  · intro kcd hmem
    rcases generate_learning_path_cases env req with ⟨e2, he⟩ | ⟨resp, kcd2, hok, hrk⟩
    · rw [he] at hmem
      simp at hmem
    · rw [hok] at hmem
      simp at hmem
      subst hmem
      exact ⟨resp, by rw [hok], hrk.symm⟩
  · intro e h
    unfold generate_learning_path
    rw [h]
  · intro intro_data outline intro_text e hI hM
    unfold generate_learning_path
    split
    · next e2 heq =>
      rw [hI] at heq
      cases heq
    · next a b c heq =>
      rw [hI] at heq
      injection heq with heq2
      injection heq2 with h1 h23
      injection h23 with h2 h3
      subst h1
      subst h2
      subst h3
      split
      · next e2 heq2 =>
        rw [hM] at heq2
        injection heq2 with h4
        subst h4
        rfl
      · next l heq2 =>
        rw [hM] at heq2
        cases heq2

/-- If the outline stage and chapter loop succeed, the pipeline is exactly
its aggregation tail. -/
theorem generate_learning_path_eq_of (env : Env) (req : CourseRequest)
    (intro_data : JVal) (outline : IntroOutline) (intro_text : String)
    (full_chapters : List ChapterContent)
    (hI : introStage env req = .ok (intro_data, outline, intro_text))
    (hM : exceptMapM (chapterStage env req intro_text) outline.chapters
        = .ok full_chapters) :
    generate_learning_path env req
      = aggregateStage env req intro_data outline full_chapters := by
  unfold generate_learning_path
  split
  · next e heq =>
    rw [hI] at heq
    cases heq
  · next a b c heq =>
    rw [hI] at heq
    injection heq with heq2
    injection heq2 with h1 h23
    injection h23 with h2 h3
    subst h1
    subst h2
    subst h3
    split
    · next e heq2 =>
      rw [hM] at heq2
      cases heq2
    · next l2 heq2 =>
      rw [hM] at heq2
      injection heq2 with h4
      subst h4
      rfl

/-- Aggregation evaluated on a fully successful path. -/
theorem aggregateStage_eq_of (env : Env) (req : CourseRequest)
    (intro_data : JVal) (outline : IntroOutline)
    (full_chapters : List ChapterContent) (ct sr : String)
    (hT : jGetV intro_data "course_title" = some (.s ct))
    (hS : (call_bedrock_api (env.bedrock (MODEL_IDS req.category)
        (build_course_summary_prompt ct outline.chapters))).fst = .ok sr)
    (hP : env.s3put (buildKey env ct)
        (buildCourseData env req ct full_chapters sr) = .ok ()) :
    aggregateStage env req intro_data outline full_chapters
      = (.ok (buildResponse env (buildCourseData env req ct full_chapters sr)
            (buildKey env ct)),
         [(buildKey env ct, buildCourseData env req ct full_chapters sr)]) := by
  unfold aggregateStage
  split
  · next ct2 heq =>
    rw [hT] at heq
    injection heq with heq2
    injection heq2 with h1
    subst h1
    split
    · next e heq2 =>
      rw [hS] at heq2
      cases heq2
    · next sr2 heq2 =>
      rw [hS] at heq2
      injection heq2 with h2
      subst h2
      split
      · next m heq3 =>
        rw [hP] at heq3
        cases heq3
      · next u heq3 =>
        rfl
  · next heq =>
    rw [hT] at heq
    simp at heq

/-- Aggregation when the course-title lookup succeeds but the narrative
summary call fails: the whole request aborts with that call's error, and
nothing is persisted. -/
theorem aggregateStage_summary_error (env : Env) (req : CourseRequest)
    (intro_data : JVal) (outline : IntroOutline)
    (full_chapters : List ChapterContent) (ct : String) (e : CallErr)
    (hT : jGetV intro_data "course_title" = some (.s ct))
    (hS : (call_bedrock_api (env.bedrock (MODEL_IDS req.category)
        (build_course_summary_prompt ct outline.chapters))).fst = .error e) :
    aggregateStage env req intro_data outline full_chapters
      = (.error (.call e), []) := by
  unfold aggregateStage
  split
  · next ct2 heq =>
    rw [hT] at heq
    injection heq with heq2
    injection heq2 with h1
    subst h1
    split
    · next e2 heq2 =>
      rw [hS] at heq2
      injection heq2 with h2
      subst h2
      rfl
    · next sr heq2 =>
      rw [hS] at heq2
      cases heq2
  · next heq =>
    rw [hT] at heq
    simp at heq

/-- Shape of any successful pipeline response, without reference to the
intermediate stages. -/
theorem generate_learning_path_ok_shape (env : Env) (req : CourseRequest)
    (resp : LearningPathResponse)
    (hresp : (generate_learning_path env req).fst = .ok resp) :
    resp.learning_path_summary.overview = fixedOverview
    ∧ resp.learning_path_summary.recommended_study_links
        = (collectStudyLinks resp.chapters).take 5 := by
  unfold generate_learning_path at hresp
  split at hresp
  · simp at hresp
  · split at hresp
    · simp at hresp
    · next full_chapters hM =>
      obtain ⟨hch, hov, hlinks, _⟩ := aggregateStage_ok_shape _ _ _ _ _ _ hresp
      rw [hch]
      exact ⟨hov, hlinks⟩

/-- A successful aggregation came from a successful title lookup, summary
call and store put, and returns the built response. -/
theorem aggregateStage_ok_inv (env : Env) (req : CourseRequest)
    (intro_data : JVal) (outline : IntroOutline)
    (full_chapters : List ChapterContent) (resp : LearningPathResponse)
    (h : (aggregateStage env req intro_data outline full_chapters).fst = .ok resp) :
    ∃ ct sr, jGetV intro_data "course_title" = some (.s ct)
      ∧ (call_bedrock_api (env.bedrock (MODEL_IDS req.category)
          (build_course_summary_prompt ct outline.chapters))).fst = .ok sr
      ∧ env.s3put (buildKey env ct)
          (buildCourseData env req ct full_chapters sr) = .ok ()
      ∧ resp = buildResponse env (buildCourseData env req ct full_chapters sr)
          (buildKey env ct) := by
  unfold aggregateStage at h
  split at h
  · next ct heq =>
    split at h
    · simp at h
    · next sr heq2 =>
      split at h
      · simp at h
      · next u heq3 =>
        simp only [Except.ok.injEq] at h
        subst h
        cases u
        exact ⟨ct, sr, heq, heq2, heq3, rfl⟩
  · simp at h

/-- A successful pipeline run exposes its successful stages. -/
theorem generate_learning_path_ok_inv (env : Env) (req : CourseRequest)
    (resp : LearningPathResponse)
    (hresp : (generate_learning_path env req).fst = .ok resp) :
    ∃ intro_data outline intro_text full_chapters,
      introStage env req = .ok (intro_data, outline, intro_text)
      ∧ exceptMapM (chapterStage env req intro_text) outline.chapters
          = .ok full_chapters
      ∧ (aggregateStage env req intro_data outline full_chapters).fst
          = .ok resp := by
  unfold generate_learning_path at hresp
  split at hresp
  · simp at hresp
  · next a b c heq =>
    split at hresp
    · simp at hresp
    · next full_chapters hM =>
      exact ⟨a, b, c, full_chapters, heq, hM, hresp⟩

/-! ## Study-link lemmas (lines 390-399) -/

/-- The links a chapter contributes, in stored order. -/
def linksOf (c : ChapterContent) : List String :=
  match c.videos with
  | none => []
  | some y => y.videos.map (fun v => v.video_link)

/-- All links reachable by traversing chapters in order and each chapter's
resources in stored order. -/
def allChapterLinks (chapters : List ChapterContent) : List String :=
  chapters.flatMap linksOf

theorem foldl_flatMap {σ α β : Type} (g : σ → β → σ) (f : α → List β)
    (l : List α) :
    ∀ init : σ, l.foldl (fun acc a => (f a).foldl g acc) init
      = (l.flatMap f).foldl g init := by
  induction l with
  | nil => intro init; rfl
  | cons x xs ih =>
    intro init
    rw [List.foldl_cons, List.flatMap_cons, List.foldl_append, ih]

theorem chapterLinksAcc_eq (acc : List String) (c : ChapterContent) :
    chapterLinksAcc acc c
      = (linksOf c).foldl (dedupStepBy (fun x : String => x)) acc := by
  unfold chapterLinksAcc linksOf
  cases c.videos with
  | none => rfl
  | some y => rw [List.foldl_map]

/-- The study-link fold is the first-occurrence deduplication of the
traversal-ordered links. -/
theorem collectStudyLinks_eq_dedup (chapters : List ChapterContent) :
    collectStudyLinks chapters
      = dedupByKey (fun x : String => x) (allChapterLinks chapters) := by
  unfold collectStudyLinks allChapterLinks
  have h1 : chapterLinksAcc
      = fun acc c => (linksOf c).foldl (dedupStepBy (fun x : String => x)) acc :=
    funext fun acc => funext fun c => chapterLinksAcc_eq acc c
  rw [h1, foldl_flatMap, foldl_dedupStepBy]
  have hfil : (chapters.flatMap linksOf).filter
      (fun y => !keyMem (fun x : String => x) y []) = chapters.flatMap linksOf := by
    apply List.filter_eq_self.mpr
    intro a _
    rfl
  rw [hfil]
  rfl

/-- Discriminator for `Except` results. -/
def exOk : Except ε α → Bool
  | .ok _ => true
  | .error _ => false

/-! ## C3: narrative summary failure -/

/-- Oracles identical to the concrete run, except the summary call fails. -/
def cxBedrockNoSum : String → Prompt → Nat → AttemptOutcome :=
  fun _ p _ =>
    match p with
    | .intro _ => .success "INTRO"
    | .chapter _ _ t _ => .success ("CH " ++ t)
    | .summary _ _ => .failure "summary boom"

def cxEnvNoSum : Env := { cxEnv with bedrock := cxBedrockNoSum }

/-- C3: the claim is false on the code.  In a run where the outline and
every chapter succeed, a failing summary call makes the whole request fail
(and persist nothing): `summary_text = call_bedrock_api(...)` at line 404
has no fallback, so the error propagates. -/
theorem c3_summary_failure_counterexample :
    introStage cxEnvNoSum cxReq
        = .ok (cxIntroJ, cxOutlineVal, mkIntroText "D" cxOutlineVal.chapters)
    ∧ exceptMapM
        (chapterStage cxEnvNoSum cxReq (mkIntroText "D" cxOutlineVal.chapters))
        cxOutlineVal.chapters = .ok [cxChB, cxChA]
    ∧ generate_learning_path cxEnvNoSum cxReq
        = (.error (.call (.upstream "summary boom")), []) :=
  ⟨rfl, rfl, rfl⟩

/-- C3 (amended): the fixed templated overview string is always used for
the summary's `overview` field, whatever the summary call does; but the
narrative-summary generation is not best-effort: when the outline and all
chapters succeeded and the title lookup succeeded, a failure of the
summary call fails the whole request with that error, persisting nothing —
there is no fallback for `course_summary`. -/
theorem c3_summary_failure_is_fatal (env : Env) (req : CourseRequest) :
    (∀ resp, (generate_learning_path env req).fst = .ok resp →
        resp.learning_path_summary.overview = fixedOverview)
    ∧ (∀ intro_data outline intro_text full_chapters ct e,
        introStage env req = .ok (intro_data, outline, intro_text) →
        exceptMapM (chapterStage env req intro_text) outline.chapters
            = .ok full_chapters →
        jGetV intro_data "course_title" = some (.s ct) →
        (call_bedrock_api (env.bedrock (MODEL_IDS req.category)
            (build_course_summary_prompt ct outline.chapters))).fst = .error e →
          generate_learning_path env req = (.error (.call e), [])) := by
  constructor
  · intro resp hresp
    exact (generate_learning_path_ok_shape env req resp hresp).1
  · intro intro_data outline intro_text full_chapters ct e hI hM hT hS
    rw [generate_learning_path_eq_of env req intro_data outline intro_text
      full_chapters hI hM]
    exact aggregateStage_summary_error env req intro_data outline full_chapters
      ct e hT hS

/-- Witness for the amended C3, applied at the concrete failing-summary
run. -/
theorem c3_summary_failure_is_fatal_witness :
    generate_learning_path cxEnvNoSum cxReq
      = (.error (.call (.upstream "summary boom")), [])
    ∧ cxRespVal.learning_path_summary.overview = fixedOverview :=
  ⟨(c3_summary_failure_is_fatal cxEnvNoSum cxReq).2 cxIntroJ cxOutlineVal
      (mkIntroText "D" cxOutlineVal.chapters) [cxChB, cxChA] "T C"
      (.upstream "summary boom") rfl rfl rfl rfl,
   (c3_summary_failure_is_fatal cxEnv cxReq).1 cxRespVal rfl⟩

/-! ## C9: recommended study links -/

/-- C9: for every successful response, the recommended links are exactly
the first-occurrence deduplication of the video links encountered by
traversing chapters in order and stored resources in order, truncated to
the first 5; hence they are pairwise distinct, at most 5, and each comes
from a resource attached to some chapter. -/
theorem c9_recommended_links (env : Env) (req : CourseRequest)
    (resp : LearningPathResponse)
    (hresp : (generate_learning_path env req).fst = .ok resp) :
    resp.learning_path_summary.recommended_study_links
        = (dedupByKey (fun x : String => x)
            (allChapterLinks resp.chapters)).take 5
    ∧ resp.learning_path_summary.recommended_study_links.length ≤ 5
    ∧ resp.learning_path_summary.recommended_study_links.Nodup
    ∧ (∀ link ∈ resp.learning_path_summary.recommended_study_links,
        ∃ c ∈ resp.chapters, link ∈ linksOf c) := by
  obtain ⟨_, hlinks⟩ := generate_learning_path_ok_shape env req resp hresp
  rw [hlinks, collectStudyLinks_eq_dedup]
  refine ⟨rfl, ?_, ?_, ?_⟩
  · simpa using List.length_take_le _ _
  · have hnd := dedupByKey_keys_nodup (fun x : String => x)
      (allChapterLinks resp.chapters)
    rw [List.map_id'] at hnd
    exact hnd.sublist (List.take_sublist _ _)
  · intro link hmem
    have h1 : link ∈ dedupByKey (fun x : String => x)
        (allChapterLinks resp.chapters) := (List.take_sublist _ _).subset hmem
    have h2 : link ∈ allChapterLinks resp.chapters :=
      (dedupByKey_sublist _ _).subset h1
    rcases List.mem_flatMap.mp h2 with ⟨c, hc, hlink⟩
    exact ⟨c, hc, hlink⟩

/-- Witness for C9 at the concrete run. -/
theorem c9_recommended_links_witness :
    cxRespVal.learning_path_summary.recommended_study_links.length ≤ 5
    ∧ cxRespVal.learning_path_summary.recommended_study_links.Nodup :=
  ⟨(c9_recommended_links cxEnv cxReq cxRespVal rfl).2.1,
   (c9_recommended_links cxEnv cxReq cxRespVal rfl).2.2.1⟩

/-! ## C8: best-effort resource enrichment -/

/-- A Video-Search service for which every keyword's query fails. -/
def failSvc : String → Option (List (Option RawItem)) := fun _ => none

theorem rawVideos_failSvc (queries : List String) :
    rawVideos failSvc queries = [] := by
  unfold rawVideos
  generalize queries.take YOUTUBE_LIMITS.keywords_per_chapter = l
  induction l with
  | nil => rfl
  | cons x xs ih =>
    rw [List.flatMap_cons]
    simpa [failSvc] using ih

theorem fetch_failSvc (queries : List String) :
    (fetch_youtube_videos failSvc queries).fst = emptyResources := by
  rw [fetch_youtube_videos_eq, rawVideos_failSvc, dedupByKey_nil]
  rfl

theorem introStage_failSvc (env : Env) (req : CourseRequest) :
    introStage { env with videoSearch := failSvc } req = introStage env req := rfl

/-- Replacing the video service with the always-failing one changes a
chapter's outcome only by emptying its attached resource set. -/
theorem chapterStage_failSvc (env : Env) (req : CourseRequest) (it : String)
    (c : OutlineChapter) :
    chapterStage { env with videoSearch := failSvc } req it c
      = (chapterStage env req it c).map
          (fun cm => { cm with videos := some emptyResources }) := by
  have hb : ({ env with videoSearch := failSvc } : Env).bedrock = env.bedrock := rfl
  have hj : ({ env with videoSearch := failSvc } : Env).jsonLoads
      = env.jsonLoads := rfl
  have hv : ({ env with videoSearch := failSvc } : Env).videoSearch = failSvc := rfl
  unfold chapterStage
  rw [hb, hj, hv]
  split
  · rfl
  · split
    · rfl
    · split
      · rfl
      · simp [Except.map, fetch_failSvc]

theorem exceptMapM_chapterStage_failSvc (env : Env) (req : CourseRequest)
    (it : String) (cs : List OutlineChapter) :
    exceptMapM (chapterStage { env with videoSearch := failSvc } req it) cs
      = (exceptMapM (chapterStage env req it) cs).map
          (List.map (fun cm => { cm with videos := some emptyResources })) :=
  exceptMapM_map_eq _ (fun c => chapterStage_failSvc env req it c) cs

/-- C8: resource enrichment is best-effort.  Zero keywords give the empty
set with `total_count = 0`; a service for which every keyword fails gives
the empty set with `total_count = 0`; and when a request succeeds, the same
request against the always-failing service (the store being oblivious to
the document body) still succeeds, with the same course, same narrative
summary and same chapter count, each chapter carrying an empty resource
set but otherwise unchanged content. -/
theorem c8_enrichment_best_effort (env : Env) (req : CourseRequest) :
    (∀ svc : String → Option (List (Option RawItem)),
      (fetch_youtube_videos svc []).fst = emptyResources)
    ∧ (∀ queries : List String,
        (fetch_youtube_videos failSvc queries).fst = emptyResources)
    ∧ ((∀ k a b, env.s3put k a = env.s3put k b) →
        ∀ resp, (generate_learning_path env req).fst = .ok resp →
          ∃ resp2,
            (generate_learning_path { env with videoSearch := failSvc } req).fst
                = .ok resp2
            ∧ resp2.chapters = resp.chapters.map
                (fun cm => { cm with videos := some emptyResources })
            ∧ resp2.course_title = resp.course_title
            ∧ resp2.learning_path_summary.course_summary
                = resp.learning_path_summary.course_summary
            ∧ resp2.metadata_total_chapters = resp.metadata_total_chapters) := by
  refine ⟨fun svc => rfl, fetch_failSvc, ?_⟩
  intro hs3 resp hresp
  obtain ⟨intro_data, outline, intro_text, full_chapters, hI, hM, hA⟩ :=
    generate_learning_path_ok_inv env req resp hresp
  obtain ⟨ct, sr, hT, hS, hP, hrespEq⟩ :=
    aggregateStage_ok_inv env req intro_data outline full_chapters resp hA
  have hI2 : introStage { env with videoSearch := failSvc } req
      = .ok (intro_data, outline, intro_text) := by
    rw [introStage_failSvc]
    exact hI
  have hM2 : exceptMapM
      (chapterStage { env with videoSearch := failSvc } req intro_text)
      outline.chapters
      = .ok (full_chapters.map
          (fun cm => { cm with videos := some emptyResources })) := by
    rw [exceptMapM_chapterStage_failSvc, hM]
    rfl
  have hS2 : (call_bedrock_api
      (({ env with videoSearch := failSvc } : Env).bedrock (MODEL_IDS req.category)
        (build_course_summary_prompt ct outline.chapters))).fst = .ok sr := hS
  have hP2 : ({ env with videoSearch := failSvc } : Env).s3put
      (buildKey { env with videoSearch := failSvc } ct)
      (buildCourseData { env with videoSearch := failSvc } req ct
        (full_chapters.map (fun cm => { cm with videos := some emptyResources })) sr)
      = .ok () := by
    show env.s3put (buildKey env ct)
      (buildCourseData env req ct
        (full_chapters.map (fun cm => { cm with videos := some emptyResources })) sr)
      = .ok ()
    rw [hs3 (buildKey env ct)
      (buildCourseData env req ct
        (full_chapters.map (fun cm => { cm with videos := some emptyResources })) sr)
      (buildCourseData env req ct full_chapters sr)]
    exact hP
  have hgp2 := generate_learning_path_eq_of { env with videoSearch := failSvc }
    req intro_data outline intro_text
    (full_chapters.map (fun cm => { cm with videos := some emptyResources }))
    hI2 hM2
  have hagg2 := aggregateStage_eq_of { env with videoSearch := failSvc } req
    intro_data outline
    (full_chapters.map (fun cm => { cm with videos := some emptyResources }))
    ct sr hT hS2 hP2
  refine ⟨buildResponse { env with videoSearch := failSvc }
      (buildCourseData { env with videoSearch := failSvc } req ct
        (full_chapters.map (fun cm => { cm with videos := some emptyResources })) sr)
      (buildKey { env with videoSearch := failSvc } ct), ?_, ?_, ?_, ?_, ?_⟩
  · rw [hgp2, hagg2]
  · subst hrespEq
    rfl
  · subst hrespEq
    rfl
  · subst hrespEq
    rfl
  · subst hrespEq
    simp [buildResponse, buildCourseData]

/-- Witness for C8: the concrete request against the always-failing video
service still succeeds. -/
theorem c8_enrichment_best_effort_witness :
    exOk (generate_learning_path
        { cxEnv with videoSearch := failSvc } cxReq).fst = true := by
  obtain ⟨resp2, h2, _⟩ :=
    (c8_enrichment_best_effort cxEnv cxReq).2.2 (fun _ _ _ => rfl) cxRespVal rfl
  rw [h2]
  rfl

/-- A model oracle that fails immediately on every call. -/
def cxBedrockFail : String → Prompt → Nat → AttemptOutcome :=
  fun _ _ _ => .failure "intro boom"

def cxEnvBadIntro : Env := { cxEnv with bedrock := cxBedrockFail }

/-- Witness for C2 at a run whose outline call fails: the request aborts
with that error and the persistence trace stays empty. -/
theorem c2_no_partial_persistence_witness :
    generate_learning_path cxEnvBadIntro cxReq
      = (.error (.call (.upstream "intro boom")), [])
    ∧ (generate_learning_path cxEnvBadIntro cxReq).snd = [] := by
  have h := (c2_no_partial_persistence cxEnvBadIntro cxReq).2.2.1
    (.call (.upstream "intro boom")) rfl
  refine ⟨h, ?_⟩
  exact (c2_no_partial_persistence cxEnvBadIntro cxReq).1 _ (by rw [h])

end LearnHub
